import Mathlib

/-!
# Verification of the day24-hail z3 solution script

A shallow embedding of `src/day24-hail/z3_solution.py`. The script declares
six integer unknowns `(px, py, pz, vx, vy, vz)` (the rock's position and
velocity), adds, for each of three hard-coded hailstones
`(sx, sy, sz, ux, uy, uz)`, the two equality constraints

  `(px - sx) * (uy - vy) = (py - sy) * (ux - vx)`
  `(px - sx) * (uz - vz) = (pz - sz) * (ux - vx)`

to a z3 `Solver`, checks satisfiability, reads back the model `m`, and
prints `m[px] + m[py] + m[pz]`.

This file embeds the constraint system over `ℤ` and proves, among other
facts, that the system has exactly one integer solution, namely
position `(422644646660238, 244357651988392, 189640099899118)` and
velocity `(-260, 34, 181)`.
-/

/-- A hailstone record: 3D position `(sx, sy, sz)` and velocity
`(ux, uy, uz)`, as in the list literal at lines 28-32 of the script. -/
structure Hailstone where
  sx : Int
  sy : Int
  sz : Int
  ux : Int
  uy : Int
  uz : Int
deriving DecidableEq

/-- An assignment to the six integer unknowns declared by `Ints(...)`:
the rock's position `(px, py, pz)` and velocity `(vx, vy, vz)`. -/
structure Rock where
  px : Int
  py : Int
  pz : Int
  vx : Int
  vy : Int
  vz : Int
deriving DecidableEq

/-- First constraint added for a hailstone (line 37 of the script):
`(px - sx) * (uy - vy) == (py - sy) * (ux - vx)`. -/
def constraint1 (h : Hailstone) (r : Rock) : Prop :=
  (r.px - h.sx) * (h.uy - r.vy) = (r.py - h.sy) * (h.ux - r.vx)

/-- Second constraint added for a hailstone (line 38 of the script):
`(px - sx) * (uz - vz) == (pz - sz) * (ux - vx)`. -/
def constraint2 (h : Hailstone) (r : Rock) : Prop :=
  (r.px - h.sx) * (h.uz - r.vz) = (r.pz - h.sz) * (h.ux - r.vx)

instance (h : Hailstone) (r : Rock) : Decidable (constraint1 h r) := by
  unfold constraint1; infer_instance

instance (h : Hailstone) (r : Rock) : Decidable (constraint2 h r) := by
  unfold constraint2; infer_instance

/-- The three hailstones hard-coded at lines 28-32 of the script. -/
def hailstones : List Hailstone :=
  [⟨216518090678054, 311610807965630, 244665409335040, -24, -43, 118⟩,
   ⟨119252599207972, 265844340901442, 404506989029618, 93, 9, -69⟩,
   ⟨366376232895280, 243548034524148, 222429607201000, 18, 38, 19⟩]

/-- The list of assertions accumulated by the `for` loop at lines 36-38:
two constraints per hailstone, in loop order. -/
def assertionsFor : List Hailstone → Rock → List Prop
  | [], _ => []
  | h :: hs, r => constraint1 h r :: constraint2 h r :: assertionsFor hs r

/-- Conjunction semantics of the solver: every added assertion holds. -/
def satFor (hs : List Hailstone) (r : Rock) : Prop :=
  ∀ c ∈ assertionsFor hs r, c

/-- Satisfying assignment of the constraint system the script submits. -/
def systemSat (r : Rock) : Prop :=
  satFor hailstones r

/-- The unique integer model of the system (what z3 reports). -/
def rockSolution : Rock :=
  ⟨422644646660238, 244357651988392, 189640099899118, -260, 34, 181⟩

/-- Line 49 of the script: `answer = m[px].as_long() + m[py].as_long() +
m[pz].as_long()`. -/
def answer (m : Rock) : Int :=
  m.px + m.py + m.pz

/-- The solver's verdict, per the spec: satisfiable / unsatisfiable /
unknown. -/
inductive Verdict where
  | sat
  | unsat
  | unknown
deriving DecidableEq

/-- Modelled from the spec: the external solver (z3) is not part of this
repository; per spec section 6 it exposes a satisfiability check returning a
discrete verdict and, on satisfiable, a way to read back one concrete
integer value per unknown.  We model the outcome of `s.check()` together
with the model that `s.model()` would return, which exists only on a
satisfiable verdict. -/
structure SolverOutcome where
  verdict : Verdict
  model : Option Rock

/-- Modelled from the spec: a well-behaved solver outcome has a model
available exactly when the verdict is satisfiable (reading the model after
an unsatisfiable/unknown verdict fails in z3). -/
def SolverOutcome.wellFormed (o : SolverOutcome) : Prop :=
  (o.verdict = Verdict.sat ↔ o.model.isSome)

/-- Lines 44-50 of the script, after the check: `m = s.model()` is read
unconditionally; if no model is available this raises, otherwise the
printed answer is `m[px] + m[py] + m[pz]`. -/
def scriptTail (o : SolverOutcome) : Except String Int :=
  match o.model with
  | none => Except.error "model is not available"
  | some m => Except.ok (answer m)

/-- Translation of a hailstone by a displacement `d` of its position and a
shift `w` of its velocity. -/
def Hailstone.translate (h : Hailstone) (dx dy dz wx wy wz : Int) : Hailstone :=
  ⟨h.sx + dx, h.sy + dy, h.sz + dz, h.ux + wx, h.uy + wy, h.uz + wz⟩

/-- Translation of a rock assignment by a displacement `d` of its position
and a shift `w` of its velocity. -/
def Rock.translate (r : Rock) (dx dy dz wx wy wz : Int) : Rock :=
  ⟨r.px + dx, r.py + dy, r.pz + dz, r.vx + wx, r.vy + wy, r.vz + wz⟩

/-- C1: for each hailstone the loop emits exactly the two cross-multiplied
equality constraints, and the system submitted to the solver is exactly the
conjunction of the six constraints obtained from the three hard-coded
hailstones, with their literal coefficients. -/
theorem systemSat_iff_six_constraints (r : Rock) :
    systemSat r ↔
      ((r.px - 216518090678054) * (-43 - r.vy) =
        (r.py - 311610807965630) * (-24 - r.vx) ∧
       (r.px - 216518090678054) * (118 - r.vz) =
        (r.pz - 244665409335040) * (-24 - r.vx)) ∧
      ((r.px - 119252599207972) * (9 - r.vy) =
        (r.py - 265844340901442) * (93 - r.vx) ∧
       (r.px - 119252599207972) * (-69 - r.vz) =
        (r.pz - 404506989029618) * (93 - r.vx)) ∧
      ((r.px - 366376232895280) * (38 - r.vy) =
        (r.py - 243548034524148) * (18 - r.vx) ∧
       (r.px - 366376232895280) * (19 - r.vz) =
        (r.pz - 222429607201000) * (18 - r.vx)) := by
  simp only [systemSat, satFor, hailstones, assertionsFor, List.mem_cons,
    List.not_mem_nil, or_false, forall_eq_or_imp, forall_eq,
    constraint1, constraint2]
  tauto

/-- C3: the printed answer is exactly `m[px] + m[py] + m[pz]` of the model
returned by the solver, computed in exact integer arithmetic, and it does
not depend on the velocity components of the model. -/
theorem answer_eq_sum_of_positions :
    (∀ m : Rock, scriptTail ⟨Verdict.sat, some m⟩ = Except.ok (m.px + m.py + m.pz)) ∧
    (∀ m m' : Rock, m.px = m'.px → m.py = m'.py → m.pz = m'.pz →
      answer m = answer m') := by
  constructor
  · intro m
    rfl
  · intro m m' hx hy hz
    simp [answer, hx, hy, hz]

/-- Witness for C3 at concrete models differing only in velocities. -/
theorem answer_eq_sum_of_positions_witness :
    answer ⟨1, 2, 3, 4, 5, 6⟩ = answer ⟨1, 2, 3, 7, 8, 9⟩ :=
  answer_eq_sum_of_positions.2 ⟨1, 2, 3, 4, 5, 6⟩ ⟨1, 2, 3, 7, 8, 9⟩ rfl rfl rfl

/-- C5: on an unsatisfiable or unknown verdict the script has no defined
answer: it reads the model unconditionally, the model is unavailable, and
the run propagates the failure instead of printing an answer. -/
theorem scriptTail_fails_without_sat (o : SolverOutcome)
    (hwf : o.wellFormed) (hns : o.verdict ≠ Verdict.sat) :
    scriptTail o = Except.error "model is not available" ∧
    ∀ a : Int, scriptTail o ≠ Except.ok a := by
  have hnone : o.model = none := by
    rcases h : o.model with _ | m
    · rfl
    · exact absurd (hwf.mpr (by simp [h])) hns
  constructor
  · simp [scriptTail, hnone]
  · intro a
    simp [scriptTail, hnone]

/-- Witness for C5 on a concrete unsatisfiable outcome. -/
theorem scriptTail_fails_without_sat_witness :
    scriptTail ⟨Verdict.unsat, none⟩ = Except.error "model is not available" ∧
    ∀ a : Int, scriptTail ⟨Verdict.unsat, none⟩ ≠ Except.ok a :=
  scriptTail_fails_without_sat ⟨Verdict.unsat, none⟩ (by simp [SolverOutcome.wellFormed])
    (by simp)

/-- C7: the input is exactly three hailstone records with the stated
literal integer values, in order; the script reads no input (the data is a
constant of the embedding). -/
theorem hailstones_are_the_three_literals :
    hailstones.length = 3 ∧
    hailstones =
      [⟨216518090678054, 311610807965630, 244665409335040, -24, -43, 118⟩,
       ⟨119252599207972, 265844340901442, 404506989029618, 93, 9, -69⟩,
       ⟨366376232895280, 243548034524148, 222429607201000, 18, 38, 19⟩] := by
  constructor
  · rfl
  · rfl

/-- C9: necessity of the encoding.  If the rock and a hailstone occupy the
same point at some real time `t` (of any sign), then both emitted
constraints hold; no non-degeneracy assumption is needed. -/
theorem constraints_of_intersection (h : Hailstone) (r : Rock) (t : ℝ)
    (hx : (r.px : ℝ) + t * r.vx = h.sx + t * h.ux)
    (hy : (r.py : ℝ) + t * r.vy = h.sy + t * h.uy)
    (hz : (r.pz : ℝ) + t * r.vz = h.sz + t * h.uz) :
    constraint1 h r ∧ constraint2 h r := by
  constructor
  · have hr : ((r.px - h.sx) * (h.uy - r.vy) : ℝ) =
        ((r.py - h.sy) * (h.ux - r.vx) : ℝ) := by
      linear_combination ((h.uy : ℝ) - r.vy) * hx - ((h.ux : ℝ) - r.vx) * hy
    exact_mod_cast hr
  · have hr : ((r.px - h.sx) * (h.uz - r.vz) : ℝ) =
        ((r.pz - h.sz) * (h.ux - r.vx) : ℝ) := by
      linear_combination ((h.uz : ℝ) - r.vz) * hx - ((h.ux : ℝ) - r.vx) * hz
    exact_mod_cast hr

/-- Witness for C9: the first hailstone and the true rock meet at
`t = 873417610094`, and indeed both constraints hold there. -/
theorem constraints_of_intersection_witness :
    constraint1 ⟨216518090678054, 311610807965630, 244665409335040, -24, -43, 118⟩
      rockSolution ∧
    constraint2 ⟨216518090678054, 311610807965630, 244665409335040, -24, -43, 118⟩
      rockSolution :=
  constraints_of_intersection _ _ (873417610094 : ℝ)
    (by norm_num [rockSolution]) (by norm_num [rockSolution])
    (by norm_num [rockSolution])

/-- C10: Galilean invariance.  Translating all positions by a common
displacement and all velocities by a common shift carries the constraints
emitted for a hailstone into the constraints emitted for the shifted
hailstone: an assignment satisfies the former iff its shift satisfies the
latter, so the solution set of the system is preserved. -/
theorem constraints_translate_invariant :
    (∀ (h : Hailstone) (r : Rock) (dx dy dz wx wy wz : Int),
      (constraint1 (h.translate dx dy dz wx wy wz) (r.translate dx dy dz wx wy wz) ↔
        constraint1 h r) ∧
      (constraint2 (h.translate dx dy dz wx wy wz) (r.translate dx dy dz wx wy wz) ↔
        constraint2 h r)) ∧
    (∀ (h1 h2 h3 : Hailstone) (r : Rock) (dx dy dz wx wy wz : Int),
      satFor [h1.translate dx dy dz wx wy wz, h2.translate dx dy dz wx wy wz,
              h3.translate dx dy dz wx wy wz] (r.translate dx dy dz wx wy wz) ↔
        satFor [h1, h2, h3] r) := by
  have base : ∀ (h : Hailstone) (r : Rock) (dx dy dz wx wy wz : Int),
      (constraint1 (h.translate dx dy dz wx wy wz) (r.translate dx dy dz wx wy wz) ↔
        constraint1 h r) ∧
      (constraint2 (h.translate dx dy dz wx wy wz) (r.translate dx dy dz wx wy wz) ↔
        constraint2 h r) := by
    intro h r dx dy dz wx wy wz
    constructor
    · unfold constraint1 Hailstone.translate Rock.translate
      constructor
      · intro hh
        linear_combination hh
      · intro hh
        linear_combination hh
    · unfold constraint2 Hailstone.translate Rock.translate
      constructor
      · intro hh
        linear_combination hh
      · intro hh
        linear_combination hh
  refine ⟨base, ?_⟩
  intro h1 h2 h3 r dx dy dz wx wy wz
  simp only [satFor, assertionsFor, List.mem_cons, List.not_mem_nil, or_false,
    forall_eq_or_imp, forall_eq]
  constructor
  · rintro ⟨a1, a2, a3, a4, a5, a6⟩
    exact ⟨(base h1 r dx dy dz wx wy wz).1.mp a1, (base h1 r dx dy dz wx wy wz).2.mp a2,
           (base h2 r dx dy dz wx wy wz).1.mp a3, (base h2 r dx dy dz wx wy wz).2.mp a4,
           (base h3 r dx dy dz wx wy wz).1.mp a5, (base h3 r dx dy dz wx wy wz).2.mp a6⟩
  · rintro ⟨a1, a2, a3, a4, a5, a6⟩
    exact ⟨(base h1 r dx dy dz wx wy wz).1.mpr a1, (base h1 r dx dy dz wx wy wz).2.mpr a2,
           (base h2 r dx dy dz wx wy wz).1.mpr a3, (base h2 r dx dy dz wx wy wz).2.mpr a4,
           (base h3 r dx dy dz wx wy wz).1.mpr a5, (base h3 r dx dy dz wx wy wz).2.mpr a6⟩

/-- C6 (amended): for three hailstones whose trajectories are fully
parallel (identical velocity vectors), the derived constraint system is
degenerate: every rock position together with the common velocity
satisfies it, so it admits infinitely many satisfying assignments and in
particular never has exactly one. -/
theorem parallel_velocities_underdetermined (h1 h2 h3 : Hailstone)
    (hx2 : h2.ux = h1.ux) (hy2 : h2.uy = h1.uy) (hz2 : h2.uz = h1.uz)
    (hx3 : h3.ux = h1.ux) (hy3 : h3.uy = h1.uy) (hz3 : h3.uz = h1.uz) :
    (∀ px py pz : Int, satFor [h1, h2, h3] ⟨px, py, pz, h1.ux, h1.uy, h1.uz⟩) ∧
    {r : Rock | satFor [h1, h2, h3] r}.Infinite ∧
    ¬ ∃! r : Rock, satFor [h1, h2, h3] r := by
  have base : ∀ px py pz : Int, satFor [h1, h2, h3] ⟨px, py, pz, h1.ux, h1.uy, h1.uz⟩ := by
    intro px py pz
    simp only [satFor, assertionsFor, List.mem_cons, List.not_mem_nil, or_false,
      forall_eq_or_imp, forall_eq, constraint1, constraint2]
    refine ⟨by simp, by simp, ?_, ?_, ?_, ?_⟩ <;> simp [hx2, hy2, hz2, hx3, hy3, hz3]
  refine ⟨base, ?_, ?_⟩
  · refine Set.infinite_of_injective_forall_mem
      (f := fun n : Int => (⟨n, 0, 0, h1.ux, h1.uy, h1.uz⟩ : Rock)) ?_ ?_
    · intro a b hab
      simpa using congrArg Rock.px hab
    · intro n
      exact base n 0 0
  · rintro ⟨r, -, huniq⟩
    have e0 : (⟨0, 0, 0, h1.ux, h1.uy, h1.uz⟩ : Rock) = r := huniq _ (base 0 0 0)
    have e1 : (⟨1, 0, 0, h1.ux, h1.uy, h1.uz⟩ : Rock) = r := huniq _ (base 1 0 0)
    have : (0 : Int) = 1 := by
      have := e0.trans e1.symm
      simpa using congrArg Rock.px this
    exact absurd this (by norm_num)

/-- Witness for the amended C6 at three concrete hailstones sharing the
velocity `(1, 2, 3)`. -/
theorem parallel_velocities_underdetermined_witness :
    (∀ px py pz : Int,
      satFor [⟨0, 0, 0, 1, 2, 3⟩, ⟨5, 6, 7, 1, 2, 3⟩, ⟨9, 9, 9, 1, 2, 3⟩]
        ⟨px, py, pz, 1, 2, 3⟩) ∧
    {r : Rock |
      satFor [⟨0, 0, 0, 1, 2, 3⟩, ⟨5, 6, 7, 1, 2, 3⟩, ⟨9, 9, 9, 1, 2, 3⟩] r}.Infinite ∧
    ¬ ∃! r : Rock,
      satFor [⟨0, 0, 0, 1, 2, 3⟩, ⟨5, 6, 7, 1, 2, 3⟩, ⟨9, 9, 9, 1, 2, 3⟩] r :=
  parallel_velocities_underdetermined _ _ _ rfl rfl rfl rfl rfl rfl

/-- Counterexample to C6 as stated: three hailstones that are pairwise
parallel in x (all have `ux = 0`) whose derived six-constraint system
nevertheless has exactly one satisfying integer assignment, namely the
rock `(0, 0, 0)` with velocity `(1, 2, 3)`. -/
theorem parallel_in_x_unique_solution_exists :
    ((⟨1, -3, -4, 0, 5, 7⟩ : Hailstone).ux = (⟨2, 2, 8, 0, 1, -1⟩ : Hailstone).ux ∧
     (⟨2, 2, 8, 0, 1, -1⟩ : Hailstone).ux = (⟨3, -6, 9, 0, 4, 0⟩ : Hailstone).ux) ∧
    ∃! r : Rock,
      satFor [⟨1, -3, -4, 0, 5, 7⟩, ⟨2, 2, 8, 0, 1, -1⟩, ⟨3, -6, 9, 0, 4, 0⟩] r := by
  refine ⟨⟨rfl, rfl⟩, ⟨⟨0, 0, 0, 1, 2, 3⟩, ?_, ?_⟩⟩
  · simp only [satFor, assertionsFor, List.mem_cons, List.not_mem_nil, or_false,
      forall_eq_or_imp, forall_eq, constraint1, constraint2]
    decide
  · rintro ⟨px, py, pz, vx, vy, vz⟩ hr
    simp only [satFor, assertionsFor, List.mem_cons, List.not_mem_nil, or_false,
      forall_eq_or_imp, forall_eq, constraint1, constraint2] at hr
    obtain ⟨h11, h12, h21, h22, h31, h32⟩ := hr
    have l1 : 4 * px - vy + 5 * vx - 3 = 0 := by linear_combination h11 - h21
    have l2 : px - 2 * vy - 3 * vx + 7 = 0 := by linear_combination h11 - h31
    have l3 : 8 * px - vz + 12 * vx - 9 = 0 := by linear_combination h12 - h22
    have l4 : 7 * px - 2 * vz + 13 * vx - 7 = 0 := by linear_combination h12 - h32
    have hvx : vx = 1 := by omega
    have hpx : px = 0 := by omega
    have hvy : vy = 2 := by omega
    have hvz : vz = 3 := by omega
    subst hvx hpx hvy hvz
    have hpy : py = 0 := by linear_combination h11
    have hpz : pz = 0 := by linear_combination h12
    subst hpy hpz
    rfl

/-- The first emitted constraint, read as a formal polynomial in the six
unknowns (variables `0..5` are `px, py, pz, vx, vy, vz`): the difference of
the two sides of `(px - sx)*(uy - vy) == (py - sy)*(ux - vx)`. -/
noncomputable def constraintPoly1 (h : Hailstone) : MvPolynomial (Fin 6) ℤ :=
  (MvPolynomial.X 0 - MvPolynomial.C h.sx) * (MvPolynomial.C h.uy - MvPolynomial.X 4) -
    (MvPolynomial.X 1 - MvPolynomial.C h.sy) * (MvPolynomial.C h.ux - MvPolynomial.X 3)

/-- The second emitted constraint as a formal polynomial: the difference of
the two sides of `(px - sx)*(uz - vz) == (pz - sz)*(ux - vx)`. -/
noncomputable def constraintPoly2 (h : Hailstone) : MvPolynomial (Fin 6) ℤ :=
  (MvPolynomial.X 0 - MvPolynomial.C h.sx) * (MvPolynomial.C h.uz - MvPolynomial.X 5) -
    (MvPolynomial.X 2 - MvPolynomial.C h.sz) * (MvPolynomial.C h.ux - MvPolynomial.X 3)

/-- The variable assignment sending variables `0..5` to the components of a
rock assignment. -/
def rockAssignment (r : Rock) : Fin 6 → ℤ
  | 0 => r.px
  | 1 => r.py
  | 2 => r.pz
  | 3 => r.vx
  | 4 => r.vy
  | 5 => r.vz

open MvPolynomial in
theorem X_mul_X_eq_monomial (i j : Fin 6) :
    (X i * X j : MvPolynomial (Fin 6) ℤ) =
      monomial (Finsupp.single i 1 + Finsupp.single j 1) 1 := by
  rw [show (X i : MvPolynomial (Fin 6) ℤ) = X i ^ 1 from (pow_one _).symm,
    show (X j : MvPolynomial (Fin 6) ℤ) = X j ^ 1 from (pow_one _).symm,
    X_pow_eq_monomial, X_pow_eq_monomial, monomial_mul, one_mul]

open MvPolynomial in
theorem constraintPoly1_nf (h : Hailstone) :
    constraintPoly1 h = C h.sy * C h.ux - C h.sx * C h.uy + C h.uy * X 0 - C h.ux * X 1
      - C h.sy * X 3 + C h.sx * X 4 + X 1 * X 3 - X 0 * X 4 := by
  unfold constraintPoly1
  ring

open MvPolynomial in
theorem constraintPoly2_nf (h : Hailstone) :
    constraintPoly2 h = C h.sz * C h.ux - C h.sx * C h.uz + C h.uz * X 0 - C h.ux * X 2
      - C h.sz * X 3 + C h.sx * X 5 + X 2 * X 3 - X 0 * X 5 := by
  unfold constraintPoly2
  ring


theorem finsupp_ne_of_apply_ne {m1 m2 : Fin 6 →₀ ℕ} (w : Fin 6) (hne : m1 w ≠ m2 w) :
    ¬ (m1 = m2) :=
  fun hcon => hne (by rw [hcon])

open MvPolynomial in
theorem constraintPoly1_coeff (h : Hailstone) :
    coeff (Finsupp.single (0 : Fin 6) 1 + Finsupp.single 4 1) (constraintPoly1 h) = -1 := by
  have hne0 : ¬ ((Finsupp.single (0 : Fin 6) 1 + Finsupp.single 4 1) = 0) :=
    finsupp_ne_of_apply_ne 0 (by simp [Finsupp.single_apply])
  have hne0' : ¬ ((0 : Fin 6 →₀ ℕ) = Finsupp.single (0 : Fin 6) 1 + Finsupp.single 4 1) :=
    fun hcon => hne0 hcon.symm
  have hA : ¬ (Finsupp.single (0 : Fin 6) 1 =
      Finsupp.single (0 : Fin 6) 1 + Finsupp.single 4 1) :=
    finsupp_ne_of_apply_ne 4 (by simp [Finsupp.single_apply])
  have hB : ¬ (Finsupp.single (1 : Fin 6) 1 =
      Finsupp.single (0 : Fin 6) 1 + Finsupp.single 4 1) :=
    finsupp_ne_of_apply_ne 4 (by simp [Finsupp.single_apply])
  have hC : ¬ (Finsupp.single (3 : Fin 6) 1 =
      Finsupp.single (0 : Fin 6) 1 + Finsupp.single 4 1) :=
    finsupp_ne_of_apply_ne 4 (by simp [Finsupp.single_apply])
  have hD : ¬ (Finsupp.single (4 : Fin 6) 1 =
      Finsupp.single (0 : Fin 6) 1 + Finsupp.single 4 1) :=
    finsupp_ne_of_apply_ne 0 (by simp [Finsupp.single_apply])
  have hE : ¬ (Finsupp.single (1 : Fin 6) 1 + Finsupp.single (3 : Fin 6) 1 =
      Finsupp.single (0 : Fin 6) 1 + Finsupp.single 4 1) :=
    finsupp_ne_of_apply_ne 0 (by simp [Finsupp.single_apply])
  rw [constraintPoly1_nf, X_mul_X_eq_monomial, X_mul_X_eq_monomial]
  simp only [coeff_add, coeff_sub, coeff_C_mul, coeff_C, coeff_X', coeff_monomial,
    if_neg hne0, if_neg hne0', if_neg hA, if_neg hB, if_neg hC, if_neg hD, if_neg hE,
    if_pos rfl]
  norm_num

open MvPolynomial in
theorem constraintPoly2_coeff (h : Hailstone) :
    coeff (Finsupp.single (0 : Fin 6) 1 + Finsupp.single 5 1) (constraintPoly2 h) = -1 := by
  have hne0 : ¬ ((Finsupp.single (0 : Fin 6) 1 + Finsupp.single 5 1) = 0) :=
    finsupp_ne_of_apply_ne 0 (by simp [Finsupp.single_apply])
  have hne0' : ¬ ((0 : Fin 6 →₀ ℕ) = Finsupp.single (0 : Fin 6) 1 + Finsupp.single 5 1) :=
    fun hcon => hne0 hcon.symm
  have hA : ¬ (Finsupp.single (0 : Fin 6) 1 =
      Finsupp.single (0 : Fin 6) 1 + Finsupp.single 5 1) :=
    finsupp_ne_of_apply_ne 5 (by simp [Finsupp.single_apply])
  have hB : ¬ (Finsupp.single (2 : Fin 6) 1 =
      Finsupp.single (0 : Fin 6) 1 + Finsupp.single 5 1) :=
    finsupp_ne_of_apply_ne 5 (by simp [Finsupp.single_apply])
  have hC : ¬ (Finsupp.single (3 : Fin 6) 1 =
      Finsupp.single (0 : Fin 6) 1 + Finsupp.single 5 1) :=
    finsupp_ne_of_apply_ne 5 (by simp [Finsupp.single_apply])
  have hD : ¬ (Finsupp.single (5 : Fin 6) 1 =
      Finsupp.single (0 : Fin 6) 1 + Finsupp.single 5 1) :=
    finsupp_ne_of_apply_ne 0 (by simp [Finsupp.single_apply])
  have hE : ¬ (Finsupp.single (2 : Fin 6) 1 + Finsupp.single (3 : Fin 6) 1 =
      Finsupp.single (0 : Fin 6) 1 + Finsupp.single 5 1) :=
    finsupp_ne_of_apply_ne 0 (by simp [Finsupp.single_apply])
  rw [constraintPoly2_nf, X_mul_X_eq_monomial, X_mul_X_eq_monomial]
  simp only [coeff_add, coeff_sub, coeff_C_mul, coeff_C, coeff_X', coeff_monomial,
    if_neg hne0, if_neg hne0', if_neg hA, if_neg hB, if_neg hC, if_neg hD, if_neg hE,
    if_pos rfl]
  norm_num

open MvPolynomial in
theorem totalDegree_X_sub_C_le (i : Fin 6) (a : ℤ) :
    (X i - C a : MvPolynomial (Fin 6) ℤ).totalDegree ≤ 1 := by
  rw [sub_eq_add_neg]
  refine le_trans (totalDegree_add _ _) (max_le ?_ ?_)
  · exact le_of_eq (totalDegree_X _)
  · rw [totalDegree_neg, totalDegree_C]
    exact Nat.zero_le 1

open MvPolynomial in
theorem totalDegree_C_sub_X_le (i : Fin 6) (a : ℤ) :
    (C a - X i : MvPolynomial (Fin 6) ℤ).totalDegree ≤ 1 := by
  rw [sub_eq_add_neg]
  refine le_trans (totalDegree_add _ _) (max_le ?_ ?_)
  · rw [totalDegree_C]
    exact Nat.zero_le 1
  · rw [totalDegree_neg]
    exact le_of_eq (totalDegree_X _)

theorem pair_monomial_weight (i j : Fin 6) :
    ((Finsupp.single i 1 + Finsupp.single j 1 : Fin 6 →₀ ℕ).sum fun _ e => e) = 2 := by
  rw [Finsupp.sum_add_index']
  · simp [Finsupp.sum_single_index]
  · intro a
    rfl
  · intro a b c
    rfl

open MvPolynomial in
theorem constraintPoly1_totalDegree (h : Hailstone) :
    (constraintPoly1 h).totalDegree = 2 := by
  apply le_antisymm
  · unfold constraintPoly1
    rw [sub_eq_add_neg]
    refine le_trans (totalDegree_add _ _) (max_le ?_ ?_)
    · exact le_trans (totalDegree_mul _ _)
        (le_trans (add_le_add (totalDegree_X_sub_C_le 0 h.sx)
          (totalDegree_C_sub_X_le 4 h.uy)) (by norm_num))
    · rw [totalDegree_neg]
      exact le_trans (totalDegree_mul _ _)
        (le_trans (add_le_add (totalDegree_X_sub_C_le 1 h.sy)
          (totalDegree_C_sub_X_le 3 h.ux)) (by norm_num))
  · have hmem : (Finsupp.single (0 : Fin 6) 1 + Finsupp.single 4 1) ∈
        (constraintPoly1 h).support := by
      rw [MvPolynomial.mem_support_iff, constraintPoly1_coeff]
      norm_num
    calc (2 : ℕ) = ((Finsupp.single (0 : Fin 6) 1 + Finsupp.single 4 1).sum
          fun _ e => e) := (pair_monomial_weight 0 4).symm
    _ ≤ (constraintPoly1 h).totalDegree := le_totalDegree hmem

open MvPolynomial in
theorem constraintPoly2_totalDegree (h : Hailstone) :
    (constraintPoly2 h).totalDegree = 2 := by
  apply le_antisymm
  · unfold constraintPoly2
    rw [sub_eq_add_neg]
    refine le_trans (totalDegree_add _ _) (max_le ?_ ?_)
    · exact le_trans (totalDegree_mul _ _)
        (le_trans (add_le_add (totalDegree_X_sub_C_le 0 h.sx)
          (totalDegree_C_sub_X_le 5 h.uz)) (by norm_num))
    · rw [totalDegree_neg]
      exact le_trans (totalDegree_mul _ _)
        (le_trans (add_le_add (totalDegree_X_sub_C_le 2 h.sz)
          (totalDegree_C_sub_X_le 3 h.ux)) (by norm_num))
  · have hmem : (Finsupp.single (0 : Fin 6) 1 + Finsupp.single 5 1) ∈
        (constraintPoly2 h).support := by
      rw [MvPolynomial.mem_support_iff, constraintPoly2_coeff]
      norm_num
    calc (2 : ℕ) = ((Finsupp.single (0 : Fin 6) 1 + Finsupp.single 5 1).sum
          fun _ e => e) := (pair_monomial_weight 0 5).symm
    _ ≤ (constraintPoly2 h).totalDegree := le_totalDegree hmem

theorem eval_constraintPoly1 (h : Hailstone) (r : Rock) :
    MvPolynomial.eval (rockAssignment r) (constraintPoly1 h) =
      (r.px - h.sx) * (h.uy - r.vy) - (r.py - h.sy) * (h.ux - r.vx) := by
  simp [constraintPoly1, rockAssignment]

theorem eval_constraintPoly2 (h : Hailstone) (r : Rock) :
    MvPolynomial.eval (rockAssignment r) (constraintPoly2 h) =
      (r.px - h.sx) * (h.uz - r.vz) - (r.pz - h.sz) * (h.ux - r.vx) := by
  simp [constraintPoly2, rockAssignment]

/-- C8: each emitted constraint, viewed as the polynomial difference of its
two sides in the six unknowns, is nonlinear: it has total degree exactly 2
and contains a product of two distinct unknowns (the monomial `px*vy`,
respectively `px*vz`, has coefficient `-1`), for every choice of hailstone
constants.  The first conjunct ties the polynomials back to the emitted
constraints. -/
theorem constraint_polynomials_quadratic (h : Hailstone) :
    (∀ r : Rock,
      (constraint1 h r ↔ MvPolynomial.eval (rockAssignment r) (constraintPoly1 h) = 0) ∧
      (constraint2 h r ↔ MvPolynomial.eval (rockAssignment r) (constraintPoly2 h) = 0)) ∧
    ((constraintPoly1 h).totalDegree = 2 ∧
      MvPolynomial.coeff (Finsupp.single 0 1 + Finsupp.single 4 1) (constraintPoly1 h) = -1) ∧
    ((constraintPoly2 h).totalDegree = 2 ∧
      MvPolynomial.coeff (Finsupp.single 0 1 + Finsupp.single 5 1) (constraintPoly2 h) = -1) := by
  refine ⟨?_, ⟨constraintPoly1_totalDegree h, constraintPoly1_coeff h⟩,
    ⟨constraintPoly2_totalDegree h, constraintPoly2_coeff h⟩⟩
  intro r
  constructor
  · unfold constraint1
    rw [eval_constraintPoly1]
    exact sub_eq_zero.symm
  · unfold constraint2
    rw [eval_constraintPoly2]
    exact sub_eq_zero.symm

/-- Helper: `rockSolution` satisfies every assertion the script submits. -/
theorem rockSolution_systemSat : systemSat rockSolution := by
  simp only [systemSat, satFor, hailstones, assertionsFor, List.mem_cons,
    List.not_mem_nil, or_false, forall_eq_or_imp, forall_eq,
    constraint1, constraint2, rockSolution]
  refine ⟨?_, ?_, ?_, ?_, ?_, ?_⟩ <;> decide

set_option maxHeartbeats 1000000 in
/-- Helper: the constraint system pins the assignment down completely: any
satisfying integer assignment is `rockSolution`.  The proof eliminates the
unknowns by hand: differences of the emitted equations are linear, the
remaining two equations reduce to a pair of conics in `(vx, vy)`, and their
resultant factors as `(vx+260)(vx+24)(vx-18)(vx-93)`; the three spurious
roots (the hailstones' x-velocities) admit no integer `vy`, and `vx = -260`
forces the unique solution. -/
theorem eq_rockSolution_of_systemSat (r : Rock) (hr : systemSat r) :
    r = rockSolution := by
  obtain ⟨px, py, pz, vx, vy, vz⟩ := r
  simp only [systemSat, satFor, hailstones, assertionsFor, List.mem_cons,
    List.not_mem_nil, or_false, forall_eq_or_imp, forall_eq,
    constraint1, constraint2] at hr
  obtain ⟨h11, h12, h21, h22, h31, h32⟩ := hr

  have l1 : (-21818631802981156) + 97265491470082 * vy + (-45766467064188) * vx + 117 * py + (-52) * px = 0 := by linear_combination h11 - h21
  have l2 : 11370050736567178 + (-149858142217226) * vy + (-68062773441482) * vx + 42 * py + (-81) * px = 0 := by linear_combination h11 - h31
  have l3 : (-77268683849155874) + 97265491470082 * vz + 159841579694578 * vx + 117 * pz + 187 * px = 0 := by linear_combination h12 - h22
  have l4 : (-28463689028659012) + (-149858142217226) * vz + (-22235802134040) * vx + 42 * pz + 99 * px = 0 := by linear_combination h12 - h32
  have epx : (-157664109079491755598) * px = (-48569938250479920229506618583306908) + 467361845970305635874235176760996 * vy + 130600985328513409020300321027228 * vx := by linear_combination (-907979237808673212) * l1 + 2529370733895589662 * l2
  have epy : (-157664109079491755598) * py = (-50988478064747390625894669289602312) + 338787120062096379730404626193084 * vy + (-3628017250499199776809678469304) * vx := by linear_combination 1124164770620262072 * l2 + (-1751102815773869766) * l1
  have epz : (-157664109079491755598) * pz = (-20045423636215042468326254855871204) + (-813998117176558817101488603250680) * vy + (-68545854707222263158284134056276) * vx := by linear_combination (-1092915431190229218) * l3 + (-709357229291308026) * l4 + 1581415762506693960 * l1 + (-4405372481268647460) * l2
  have evz : (-157664109079491755598) * vz = (-7758200458764755204634) + 80615585185441485894 * vy + 90461281465108704150 * vx := by linear_combination (-306306) * l3 + 853281 * l4 + (-156618) * l1 + 436293 * l2
  have hq1 : 88620218509197414063200725747066539528 * ((-1024766806496743410) + (-4389281630908689) * vy + 831482818506111 * vy * vy + 13452747547446602 * vx + (-370383666477496) * vx * vy + 6454600509314 * vx * vx) = 0 := by linear_combination 24857971291829874644727803572052164337604 * h11 + (-(6779556690418145490714 + 157664109079491755598 * vy)) * epx + (3783938617907802134352 + 157664109079491755598 * vx) * epy
  have hq2 : 1446800059788277286664 * (59735957079847027821415798635167682 + (-570538667716472852270826896693919) * vy + (-26041365184735964918041703636091) * vy * vy + (-1916628448983664037869204577546254) * vx + 52206012208523902584931420845722 * vx * vy + (-696095754975348023582113973818) * vx * vx) = 0 := by linear_combination 24857971291829874644727803572052164337604 * h12 + (-((-18604364871380027160564) + 157664109079491755598 * vz)) * epx + ((-14432806384131927318895147913060616) + 467361845970305635874235176760996 * vy + 130600985328513409020300321027228 * vx) * evz + (3783938617907802134352 + 157664109079491755598 * vx) * epz
  have hQ1 : (-1024766806496743410) + (-4389281630908689) * vy + 831482818506111 * vy * vy + 13452747547446602 * vx + (-370383666477496) * vx * vy + 6454600509314 * vx * vx = 0 := (mul_eq_zero.mp hq1).resolve_left (by norm_num)
  have hQ2 : 59735957079847027821415798635167682 + (-570538667716472852270826896693919) * vy + (-26041365184735964918041703636091) * vy * vy + (-1916628448983664037869204577546254) * vx + 52206012208523902584931420845722 * vx * vy + (-696095754975348023582113973818) * vx * vx = 0 := (mul_eq_zero.mp hq2).resolve_left (by norm_num)
  have hquart : (2840908778995983695819915569721966996192003365749297189882659503965263730842625764963800056 : Int) * ((vx + 260) * (vx + 24) * (vx - 18) * (vx - 93)) = 0 := by linear_combination (934385001519788352981630638380235648375220144981138564569708455422781075322823324 + 15330447137255058322284419762073505526630753676769049636308122339615176020255428 * vy + (-82374265758345343407259829649539182248524689976053090727465229087295735713106182) * vx + (-879237369390586166946774990872678983933149964022751422823181340045698433025546) * vx * vy + 1751941796338875865008403016872217792058632859774745319669476114015912861017948 * vx * vx) * hQ1 + (16526096401428935937109589387032555968446597384901951044417840700 + 489490597141020020590162505060714916205883654095604071136889588 * vy + (-1103643250632455061626506418791152382428574594087696291591484766) * vx + (-28073442419420362914987670998730937596605568900507715658225666) * vx * vy + 12163808745308711801212709635904263628155480188243533985350112 * vx * vx) * hQ2
  have hquart0 : (vx + 260) * (vx + 24) * (vx - 18) * (vx - 93) = 0 := (mul_eq_zero.mp hquart).resolve_left (by norm_num)
  clear h11 h12 h21 h22 h31 h32 l1 l2 l3 l4 hq1 hq2 hquart
  rcases mul_eq_zero.mp hquart0 with habc | hd93
  · rcases mul_eq_zero.mp habc with hab | hc18
    · rcases mul_eq_zero.mp hab with ha260 | hb24
      · -- main branch: vx = -260
        have hvx : vx = -260 := by linear_combination ha260
        clear hquart0 hab habc ha260
        subst hvx
        have h34 : (9367103508144314119641291254349148960157381675268 : Int) * (vy - 34) = 0 := by
          linear_combination (-26041365184735964918041703636091) * hQ1 + (-831482818506111) * hQ2
        clear hQ1 hQ2
        have hvy : vy = 34 := by
          rcases mul_eq_zero.mp h34 with hE | hvy34
          · exact absurd hE (by norm_num)
          · linear_combination hvy34
        subst hvy
        have hpx : px = 422644646660238 := by
          have h2 : (-157664109079491755598 : Int) * px =
              (-157664109079491755598) * 422644646660238 := by linear_combination epx
          exact mul_left_cancel₀ (by norm_num) h2
        have hpy : py = 244357651988392 := by
          have h2 : (-157664109079491755598 : Int) * py =
              (-157664109079491755598) * 244357651988392 := by linear_combination epy
          exact mul_left_cancel₀ (by norm_num) h2
        have hpz : pz = 189640099899118 := by
          have h2 : (-157664109079491755598 : Int) * pz =
              (-157664109079491755598) * 189640099899118 := by linear_combination epz
          exact mul_left_cancel₀ (by norm_num) h2
        have hvz : vz = 181 := by
          have h2 : (-157664109079491755598 : Int) * vz =
              (-157664109079491755598) * 181 := by linear_combination evz
          exact mul_left_cancel₀ (by norm_num) h2
        subst hpx hpy hpz hvz
        rfl
      · -- degenerate branch vx = -24
        have hvx : vx = -24 := by linear_combination hb24
        clear hquart0 hab habc hb24
        subst hvx
        clear hQ1 epx epy epz evz
        have hfac : ((-3) : Int) * (31319186163730181 * vy - (-3370277256197615795)) * (277160939502037 * vy - 10417944943737186) = 0 := by linear_combination hQ2
        clear hQ2
        rcases mul_eq_zero.mp hfac with htA | hB
        · rcases mul_eq_zero.mp htA with ht | hA
          · exact absurd ht (by norm_num)
          · exfalso
            omega
        · exfalso
          omega
    · -- degenerate branch vx = 18
      have hvx : vx = 18 := by linear_combination hc18
      clear hquart0 habc hc18
      subst hvx
      clear hQ1 epx epy epz evz
      have hfac : ((-3) : Int) * (277160939502037 * vy - (-6846719825242867)) * (31319186163730181 * vy - 1217668733443067278) = 0 := by linear_combination hQ2
      clear hQ2
      rcases mul_eq_zero.mp hfac with htA | hB
      · rcases mul_eq_zero.mp htA with ht | hA
        · exact absurd ht (by norm_num)
        · exfalso
          omega
      · exfalso
        omega
  · -- degenerate branch vx = 93
    have hvx : vx = 93 := by linear_combination hd93
    clear hquart0 hd93
    subst hvx
    clear hQ1 epx epy epz evz
    have hfac : ((-3) : Int) * (277160939502037 * vy - 10450539082253606) * (31319186163730181 * vy - 3972076460370853479) = 0 := by linear_combination hQ2
    clear hQ2
    rcases mul_eq_zero.mp hfac with htA | hB
    · rcases mul_eq_zero.mp htA with ht | hA
      · exact absurd ht (by norm_num)
      · exfalso
        omega
    · exfalso
      omega

/-- C2: the six-constraint system for the three fixed hailstones is
satisfiable over the integers with zero residual, and the satisfying
integer assignment is unique. -/
theorem system_has_unique_integer_model : ∃! r : Rock, systemSat r :=
  ⟨rockSolution, rockSolution_systemSat,
    fun r hr => eq_rockSolution_of_systemSat r hr⟩

/-- C4: round-trip.  Every integer assignment satisfying the six emitted
constraints meets each of the three hailstones at a single non-negative
real time: the `t` solving the x-equation also solves the y and z
equations simultaneously. -/
theorem satisfying_assignment_meets_hailstones (r : Rock) (hr : systemSat r) :
    ∀ h ∈ hailstones, ∃ t : ℝ, 0 ≤ t ∧
      (r.px : ℝ) + t * r.vx = h.sx + t * h.ux ∧
      (r.py : ℝ) + t * r.vy = h.sy + t * h.uy ∧
      (r.pz : ℝ) + t * r.vz = h.sz + t * h.uz := by
  have hsol := eq_rockSolution_of_systemSat r hr
  subst hsol
  intro h hmem
  simp only [hailstones, List.mem_cons, List.not_mem_nil, or_false] at hmem
  rcases hmem with rfl | rfl | rfl
  · exact ⟨873417610094, by norm_num, by norm_num [rockSolution],
      by norm_num [rockSolution], by norm_num [rockSolution]⟩
  · exact ⟨859467556522, by norm_num, by norm_num [rockSolution],
      by norm_num [rockSolution], by norm_num [rockSolution]⟩
  · exact ⟨202404366061, by norm_num, by norm_num [rockSolution],
      by norm_num [rockSolution], by norm_num [rockSolution]⟩

/-- Witness for C4: instantiated at the actual model and the first
hailstone. -/
theorem satisfying_assignment_meets_hailstones_witness :
    ∃ t : ℝ, 0 ≤ t ∧
      (rockSolution.px : ℝ) + t * rockSolution.vx = 216518090678054 + t * (-24) ∧
      (rockSolution.py : ℝ) + t * rockSolution.vy = 311610807965630 + t * (-43) ∧
      (rockSolution.pz : ℝ) + t * rockSolution.vz = 244665409335040 + t * 118 := by
  have hmain := satisfying_assignment_meets_hailstones rockSolution rockSolution_systemSat
    ⟨216518090678054, 311610807965630, 244665409335040, -24, -43, 118⟩
    (by simp [hailstones])
  simpa using hmain
